import Mathlib

/-!
Shallow embedding of the BookRetrieval indexing pipeline
(`app/data_indexing.ipynb`) and proofs about its behaviour.

The notebook builds two chromadb collections (`text_chroma_db`,
`image_chroma_db`), embeds catalog items and image files, and inserts
them.  The embedding models (`TextEmbeddingGenerator`,
`ImageEmbeddingGenerator`) and the chromadb store are external
collaborators: they are modelled from the specification where their
behaviour matters, and every such definition is marked
`Modelled from the spec:` in its doc comment.  Everything else is a
direct translation of the notebook's Python code.
-/

namespace BookRetrieval

/-! ### Python string primitives used by the notebook -/

/-- ASCII lower-casing of one character, as Python's `str.lower` acts on
the ASCII range (all strings the notebook lower-cases are file names). -/
def lowerChar (c : Char) : Char :=
  if 'A' ≤ c ∧ c ≤ 'Z' then Char.ofNat (c.toNat + 32) else c

/-- Python `s.lower()` restricted to ASCII input. -/
def pyLower (s : String) : String := String.mk (s.toList.map lowerChar)

/-- Python `s.endswith(t)` for a single suffix `t`. -/
def endswith (s t : String) : Bool :=
  (s.toList.drop (s.toList.length - t.toList.length) == t.toList)
    && decide (t.toList.length ≤ s.toList.length)

/-- Python slice `s[n:]`. -/
def pySliceFrom (s : String) (n : Nat) : String := String.mk (s.toList.drop n)

/-- Python slice `s[:-n]` (for `n ≤ len(s)`; shorter strings give `""`,
exactly as in Python). -/
def pyDropLast (s : String) (n : Nat) : String :=
  String.mk (s.toList.take (s.toList.length - n))

/-- `os.path.basename`: the part of the path after the last separator
(the notebook ran on Windows, where both `/` and `\` separate). -/
def basename (p : String) : String :=
  String.mk (p.toList.foldl (fun acc c => if c = '/' ∨ c = '\\' then [] else acc ++ [c]) [])

/-- `os.path.join` on the notebook's platform. -/
def os_path_join (a b : String) : String := a ++ "\\" ++ b

/-! ### base64 (Python `base64.b64encode(...).decode('utf-8')`) -/

def base64Chars : String :=
  "ABCDEFGHIJKLMNOPQRSTUVWXYZabcdefghijklmnopqrstuvwxyz0123456789+/"

def b64Char (n : Nat) : Char := base64Chars.toList.getD n '?'

/-- RFC 4648 base64 of a byte list, 3 bytes to 4 characters with `=`
padding. -/
def base64Core : List Nat → List Char
  | [] => []
  | [b1] => [b64Char (b1 / 4), b64Char (b1 % 4 * 16), '=', '=']
  | [b1, b2] =>
      [b64Char (b1 / 4), b64Char (b1 % 4 * 16 + b2 / 16), b64Char (b2 % 16 * 4), '=']
  | b1 :: b2 :: b3 :: rest =>
      b64Char (b1 / 4) :: b64Char (b1 % 4 * 16 + b2 / 16) ::
        b64Char (b2 % 16 * 4 + b3 / 64) :: b64Char (b3 % 64) :: base64Core rest

def base64Encode (bytes : List Nat) : String := String.mk (base64Core bytes)

/-- Notebook cell `2bf88a3d`: read the file's bytes and return their
base64 encoding decoded as a UTF-8 string.  The file system is passed
in as `readFile`. -/
def image_to_base64 (readFile : String → List Nat) (path : String) : String :=
  base64Encode (readFile path)

/-! ### Data model and vector store -/

/-- One record of `product_injected_categories.json` as the text loop
reads it: `item['Id']` (an integer in the JSON), `item['Name']`,
`item['Description']`. -/
structure CatalogItem where
  Id : Nat
  Name : String
  Description : String
deriving DecidableEq

/-- One stored entry of a chromadb collection: id, embedding, metadata
mapping, optional document. -/
structure IndexEntry (E : Type) where
  id : String
  embedding : E
  metadata : List (String × String)
  document : Option String
deriving DecidableEq

/-- Modelled from the spec: the Vector Store collaborator (chromadb) is
not part of this repository's sources; its insert contract is the
spec's upsert — "overwrites if `id` exists, inserts otherwise". -/
def upsert {E : Type} (c : List (IndexEntry E)) (e : IndexEntry E) : List (IndexEntry E) :=
  if c.any (fun x => x.id == e.id) then
    c.map (fun x => if x.id == e.id then e else x)
  else
    c ++ [e]

/-- The store invariant: at most one entry per id. -/
def uniqueIds {E : Type} (c : List (IndexEntry E)) : Prop :=
  c.Pairwise (fun a b => a.id ≠ b.id)

/-- Modelled from the spec: `chromadb.PersistentClient` is external;
`get_or_create_collection` is the spec's idempotent get-or-create,
state is the list of (collection name, similarity metric) pairs and the
returned handle is the collection's name. -/
def get_or_create_collection (st : List (String × String)) (name metric : String) :
    List (String × String) × String :=
  match st.find? (fun p => p.1 == name) with
  | some p => (st, p.1)
  | none => (st ++ [(name, metric)], name)

/-- Notebook cell `e989ee67`, first collection name. -/
def text_collection_name : String := "text_chroma_db"

/-- Notebook cell `e989ee67`, second collection name. -/
def image_collection_name : String := "image_chroma_db"

/-- Notebook cell `e989ee67`: the two `get_or_create_collection` calls,
each with metadata `{"hnsw:space": "cosine"}`. -/
def setupCollections (st : List (String × String)) : List (String × String) :=
  let st1 := (get_or_create_collection st text_collection_name "cosine").1
  (get_or_create_collection st1 image_collection_name "cosine").1

/-! ### Text pass (notebook cell `3de907a6`) -/

/-- The composite text
`f"Tên sách: {item['Name']}\n" + f"Nội dung sách: {item['Description']}"`. -/
def compositeText (item : CatalogItem) : String :=
  "Tên sách: " ++ item.Name ++ "\n" ++ "Nội dung sách: " ++ item.Description

/-- The arguments of `text_collection.add` for one item: id
`str(item['Id'])`, metadata `{'id', 'name', 'description'}`, document
the composite text. -/
def textEntry {E : Type} (item : CatalogItem) (emb : E) : IndexEntry E :=
  { id := toString item.Id
    embedding := emb
    metadata := [("id", toString item.Id), ("name", item.Name),
                 ("description", item.Description)]
    document := some (compositeText item) }

/-- The text indexing loop.  The generator may fail
(`Except Err E`); the loop body has no exception handling, so an error
propagates and ends the loop, leaving the entries inserted so far.  The
second component reports the propagated error, if any. -/
def textPass {E Err : Type} (gen : String → Except Err E) :
    List CatalogItem → List (IndexEntry E) → List (IndexEntry E) × Option Err
  | [], c => (c, none)
  | item :: rest, c =>
    match gen (compositeText item) with
    | .error err => (c, some err)
    | .ok emb => textPass gen rest (upsert c (textEntry item emb))

/-! ### Image pass (notebook cells `e0ff090a`, `37501ace`) -/

/-- Cell `e0ff090a`: `image_extensions = ('.jpg', '.jpeg', '.png', '.bmp', '.gif')`. -/
def image_extensions : List String := [".jpg", ".jpeg", ".png", ".bmp", ".gif"]

/-- The loop's filter `file.lower().endswith(image_extensions)`
(Python `endswith` with a tuple accepts any member). -/
def isImageFile (file : String) : Bool :=
  image_extensions.any (fun ext => endswith (pyLower file) ext)

/-- `os.path.basename(subdir)[5:]`, stored as `product_id`. -/
def productIdOf (subdir : String) : String := pySliceFrom (basename subdir) 5

/-- `os.path.basename(file)[:-4]`, stored as `image_id` and used as the
entry's id. -/
def imageIdOf (file : String) : String := pyDropLast (basename file) 4

/-- The arguments of `image_collection.add` for one file. -/
def imageEntry {E : Type} (subdir file : String) (emb : E) : IndexEntry E :=
  { id := imageIdOf file
    embedding := emb
    metadata := [("product_id", productIdOf subdir), ("image_id", imageIdOf file)]
    document := none }

/-- The Python variable `image_embedding`: before the loop it holds the
`ImageEmbeddingGenerator` object, but the loop body reassigns it to the
embedding the generator returned. -/
inductive ImageVar (E : Type) where
  | generator
  | value (e : E)
deriving DecidableEq

inductive PyError where
  | attributeError
deriving DecidableEq

/-- Modelled from the spec: `ImageEmbeddingGenerator.generate_image_embedding`
lives in `src/engine/image_embedding.py`, which is not among the given
sources; per the spec it returns an `EmbeddingVector` ("ordered sequence
of floating-point numbers"), modelled by `genFn`.  Calling
`.generate_image_embedding` on such a returned vector instead of on the
generator object raises Python's `AttributeError`. -/
def generate_image_embedding {E : Type} (genFn : String → E) :
    ImageVar E → String → Except PyError E
  | .generator, s => .ok (genFn s)
  | .value _, _ => .error .attributeError

/-- The `os.walk` input flattened: pairs `(subdir, file)` of the files
that pass the extension filter, in loop order.  (The nested
`for subdir ... for file ... if ...` visits exactly these, and an
exception escapes both loops alike.) -/
def walkFiles (walk : List (String × List String)) : List (String × String) :=
  (walk.map (fun p => (p.2.filter isImageFile).map (fun f => (p.1, f)))).flatten

/-- The image indexing loop over the filtered files.  The state carries
the `image_embedding` variable (`ImageVar`), which the body overwrites
with the returned embedding, and the collection contents.  An
`AttributeError` propagates and ends the loop. -/
def imagePassLoop {E : Type} (genFn : String → E) (readFile : String → List Nat) :
    List (String × String) → ImageVar E → List (IndexEntry E) →
    List (IndexEntry E) × Option PyError
  | [], _, c => (c, none)
  | (sd, f) :: rest, v, c =>
    match generate_image_embedding genFn v (image_to_base64 readFile (os_path_join sd f)) with
    | .error e => (c, some e)
    | .ok emb => imagePassLoop genFn readFile rest (.value emb) (upsert c (imageEntry sd f emb))

/-- Cell `37501ace` as a whole: walk, filter, embed, insert. -/
def imagePass {E : Type} (genFn : String → E) (readFile : String → List Nat)
    (walk : List (String × List String)) (c : List (IndexEntry E)) :
    List (IndexEntry E) × Option PyError :=
  imagePassLoop genFn readFile (walkFiles walk) .generator c

/-! ### Store lemmas -/

lemma toList_append (s t : String) : (s ++ t).toList = s.toList ++ t.toList := by
  cases s
  cases t
  rfl

lemma filter_eq_nil_of_ids_ne {E : Type} {c : List (IndexEntry E)} {i : String}
    (h : ∀ x ∈ c, x.id ≠ i) : c.filter (fun x => x.id == i) = [] := by
  induction c with
  | nil => rfl
  | cons a t ih =>
      have ha : (a.id == i) = false := beq_eq_false_iff_ne.mpr (h a (List.mem_cons_self a t))
      simp only [List.filter_cons, ha, Bool.false_eq_true, if_false]
      exact ih (fun x hx => h x (List.mem_cons_of_mem _ hx))

lemma filter_map_upd {E : Type} (e : IndexEntry E) :
    ∀ t : List (IndexEntry E), t.Pairwise (fun a b => a.id ≠ b.id) →
      (∃ x ∈ t, x.id = e.id) →
      (t.map (fun x => if x.id == e.id then e else x)).filter (fun x => x.id == e.id) = [e] := by
  intro t
  induction t with
  | nil => rintro _ ⟨x, hx, _⟩; exact absurd hx (List.not_mem_nil x)
  | cons a t ih =>
      intro hp hex
      rcases List.pairwise_cons.mp hp with ⟨hhead, htail⟩
      by_cases ha : a.id = e.id
      · have h1 : (a.id == e.id) = true := beq_iff_eq.mpr ha
        have htne : ∀ x ∈ t, x.id ≠ e.id :=
          fun x hx hcon => hhead x hx (ha.trans hcon.symm)
        have hnil : (t.map (fun x => if x.id == e.id then e else x)).filter
            (fun x => x.id == e.id) = [] := by
          rw [List.filter_eq_nil_iff]
          rintro y hy
          rcases List.mem_map.mp hy with ⟨x, hx, rfl⟩
          have hxne : (x.id == e.id) = false := beq_eq_false_iff_ne.mpr (htne x hx)
          simp [hxne]
        simp only [List.map_cons, h1, if_true, List.filter_cons, beq_self_eq_true, hnil]
      · have h1 : (a.id == e.id) = false := beq_eq_false_iff_ne.mpr ha
        rcases hex with ⟨x, hx, hxid⟩
        have hxt : x ∈ t := by
          rcases List.mem_cons.mp hx with rfl | hxt
          · exact absurd hxid ha
          · exact hxt
        simp only [List.map_cons, h1, Bool.false_eq_true, if_false, List.filter_cons]
        exact ih htail ⟨x, hxt, hxid⟩

lemma filter_upsert {E : Type} {c : List (IndexEntry E)} {e : IndexEntry E}
    (hc : uniqueIds c) :
    (upsert c e).filter (fun x => x.id == e.id) = [e] := by
  unfold upsert
  by_cases h : (c.any (fun x => x.id == e.id)) = true
  · simp only [h, if_true]
    refine filter_map_upd e c hc ?_
    rcases List.any_eq_true.mp h with ⟨x, hx, hxe⟩
    exact ⟨x, hx, beq_iff_eq.mp hxe⟩
  · have h' : ∀ x ∈ c, x.id ≠ e.id := by
      intro x hx hcon
      exact h (List.any_eq_true.mpr ⟨x, hx, beq_iff_eq.mpr hcon⟩)
    simp only [h, Bool.false_eq_true, if_false]
    rw [List.filter_append, filter_eq_nil_of_ids_ne h', List.nil_append]
    simp [List.filter_cons]

lemma id_of_upd {E : Type} (e x : IndexEntry E) :
    (if x.id == e.id then e else x).id = x.id := by
  by_cases hx : x.id = e.id
  · simp [hx]
  · simp [beq_eq_false_iff_ne.mpr hx]

lemma uniqueIds_upsert {E : Type} {c : List (IndexEntry E)} {e : IndexEntry E}
    (hc : uniqueIds c) : uniqueIds (upsert c e) := by
  unfold uniqueIds upsert
  by_cases h : (c.any (fun x => x.id == e.id)) = true
  · simp only [h, if_true]
    rw [List.pairwise_map]
    refine hc.imp ?_
    intro a b hab
    rw [id_of_upd e a, id_of_upd e b]
    exact hab
  · simp only [h, Bool.false_eq_true, if_false]
    rw [List.pairwise_append]
    refine ⟨hc, List.pairwise_singleton _ _, ?_⟩
    intro a ha b hb
    rcases List.mem_singleton.mp hb with rfl
    intro hcon
    exact h (List.any_eq_true.mpr ⟨a, ha, beq_iff_eq.mpr hcon⟩)

/-! ### C1 -/

/-- C1: re-inserting an id that already exists overwrites the prior
entry and never duplicates: with the store invariant, after two inserts
with the same id `i` the collection holds exactly one entry for `i`,
equal to the last write, and the invariant is preserved; hence the text
pass leaves the later of two same-id items in the collection. -/
theorem upsert_last_write_wins {E : Type} (c : List (IndexEntry E))
    (e1 e2 : IndexEntry E) (i : String)
    (hc : uniqueIds c) (h1 : e1.id = i) (h2 : e2.id = i) :
    (upsert (upsert c e1) e2).filter (fun x => x.id == i) = [e2] ∧
    uniqueIds (upsert (upsert c e1) e2) ∧
    (∀ {Err : Type} (gen : String → Except Err E) (it1 it2 : CatalogItem) (emb1 emb2 : E),
      toString it1.Id = i → toString it2.Id = i →
      gen (compositeText it1) = .ok emb1 → gen (compositeText it2) = .ok emb2 →
      (textPass gen [it1, it2] c).1.filter (fun x => x.id == i) = [textEntry it2 emb2]) := by
  refine ⟨?_, uniqueIds_upsert (uniqueIds_upsert hc), ?_⟩
  · have := filter_upsert (e := e2) (uniqueIds_upsert (c := c) (e := e1) hc)
    rwa [h2] at this
  · intro Err gen it1 it2 emb1 emb2 hid1 hid2 hg1 hg2
    have hstep : textPass gen [it1, it2] c =
        (upsert (upsert c (textEntry it1 emb1)) (textEntry it2 emb2), none) := by
      simp [textPass, hg1, hg2]
    rw [hstep]
    have h2' : (textEntry it2 emb2).id = i := by simpa [textEntry] using hid2
    have := filter_upsert (e := textEntry it2 emb2)
      (uniqueIds_upsert (c := c) (e := textEntry it1 emb1) hc)
    rwa [h2'] at this

/-- Witness for C1 at a concrete store state. -/
theorem upsert_last_write_wins_witness :
    (upsert (upsert ([] : List (IndexEntry Nat)) ⟨"7", 0, [], none⟩) ⟨"7", 1, [], none⟩).filter
        (fun x => x.id == "7") = [⟨"7", 1, [], none⟩] ∧
    (textPass (fun _ => (Except.ok 1 : Except String Nat))
        [⟨7, "a", "b"⟩, ⟨7, "c", "d"⟩] []).1.filter (fun x => x.id == "7") =
      [textEntry ⟨7, "c", "d"⟩ 1] :=
  ⟨(upsert_last_write_wins [] ⟨"7", 0, [], none⟩ ⟨"7", 1, [], none⟩ "7"
      List.Pairwise.nil rfl rfl).1,
   (upsert_last_write_wins [] ⟨"7", 0, [], none⟩ ⟨"7", 1, [], none⟩ "7"
      List.Pairwise.nil rfl rfl).2.2
      (fun _ => (Except.ok 1 : Except String Nat)) ⟨7, "a", "b"⟩ ⟨7, "c", "d"⟩ 1 1
      rfl rfl rfl rfl⟩

/-! ### C2 -/

/-- A concrete batch of five catalog items; the third has an empty
description. -/
def demoItems : List CatalogItem :=
  [⟨1, "n1", "d1"⟩, ⟨2, "n2", "d2"⟩, ⟨3, "n3", ""⟩, ⟨4, "n4", "d4"⟩, ⟨5, "n5", "d5"⟩]

/-- A generator that raises `InputError` on the third item's composite
text and succeeds elsewhere. -/
def demoGen : String → Except String Nat :=
  fun s => if s = compositeText ⟨3, "n3", ""⟩ then .error "InputError" else .ok 0

/-- C2 fails on the code: with five items where the third one's
generator call fails, the loop stops at the third item, so only two
entries are inserted, item 4 is absent, and the error propagates. -/
theorem textPass_not_failure_contained :
    (textPass demoGen demoItems []).2 = some "InputError" ∧
    (textPass demoGen demoItems []).1.any (fun e => e.id == "4") = false ∧
    (textPass demoGen demoItems []).1.length = 2 := by
  refine ⟨rfl, ?_, rfl⟩
  rfl

/-- C2 as amended: the text loop has no per-item error handling, so the
first failing generator call ends the pass, leaving exactly the entries
of the items before the failure and reporting that error; later items
are never inserted. -/
theorem textPass_halts_on_first_failure {E Err : Type} (gen : String → Except Err E)
    (pre : List CatalogItem) (x : CatalogItem) (suf : List CatalogItem)
    (c : List (IndexEntry E)) (err : Err)
    (hpre : ∀ it ∈ pre, ∃ emb, gen (compositeText it) = .ok emb)
    (hx : gen (compositeText x) = .error err) :
    ∃ c', textPass gen (pre ++ x :: suf) c = (c', some err) ∧
      textPass gen pre c = (c', none) := by
  induction pre generalizing c with
  | nil =>
      refine ⟨c, ?_, rfl⟩
      simp [textPass, hx]
  | cons it pre ih =>
      rcases hpre it (List.mem_cons_self it pre) with ⟨emb, hit⟩
      rcases ih (upsert c (textEntry it emb))
          (fun j hj => hpre j (List.mem_cons_of_mem _ hj)) with ⟨c', hrun, hpre'⟩
      refine ⟨c', ?_, ?_⟩
      · simpa [textPass, hit] using hrun
      · simpa [textPass, hit] using hpre'

/-- Witness for C2's amended theorem on the concrete five-item batch. -/
theorem textPass_halts_on_first_failure_witness :
    ∃ c', textPass demoGen
        ([⟨1, "n1", "d1"⟩, ⟨2, "n2", "d2"⟩] ++ ⟨3, "n3", ""⟩ :: [⟨4, "n4", "d4"⟩, ⟨5, "n5", "d5"⟩])
        [] = (c', some "InputError") ∧
      textPass demoGen [⟨1, "n1", "d1"⟩, ⟨2, "n2", "d2"⟩] [] = (c', none) := by
  refine textPass_halts_on_first_failure demoGen _ _ _ [] "InputError" ?_ ?_
  · intro it hit
    rcases List.mem_cons.mp hit with rfl | hit
    · exact ⟨0, rfl⟩
    rcases List.mem_cons.mp hit with rfl | hit
    · exact ⟨0, rfl⟩
    · exact absurd hit (List.not_mem_nil it)
  · rfl

/-! ### C3 -/

/-- C3 fails on the code: the composite text uses the notebook's
Vietnamese labels, so name `Atlas`, description `A map` does not give
the English two-line text the claim states. -/
theorem compositeText_not_english_labels :
    compositeText ⟨1, "Atlas", "A map"⟩ ≠ "Name: Atlas\nDescription: A map" := by
  decide

/-- C3 as amended: for fixed name and description the composite text is
one fixed string, depending on nothing else; it is the two lines
`Tên sách: <name>` and `Nội dung sách: <description>` (exactly one
newline when the fields themselves contain none), and Atlas / A map
gives the Vietnamese-labelled composite. -/
theorem compositeText_vietnamese_two_lines :
    compositeText ⟨1, "Atlas", "A map"⟩ = "Tên sách: Atlas\nNội dung sách: A map" ∧
    (∀ it1 it2 : CatalogItem, it1.Name = it2.Name → it1.Description = it2.Description →
      compositeText it1 = compositeText it2) ∧
    (∀ it : CatalogItem, '\n' ∉ it.Name.toList → '\n' ∉ it.Description.toList →
      (compositeText it).toList.count '\n' = 1) := by
  refine ⟨by decide, ?_, ?_⟩
  · intro it1 it2 hn hd
    unfold compositeText
    rw [hn, hd]
  · intro it hn hd
    have hsplit : (compositeText it).toList =
        "Tên sách: ".toList ++ it.Name.toList ++ "\n".toList ++
          "Nội dung sách: ".toList ++ it.Description.toList := by
      simp [compositeText, toList_append]
    have hn0 : it.Name.toList.count '\n' = 0 := List.count_eq_zero.mpr hn
    have hd0 : it.Description.toList.count '\n' = 0 := List.count_eq_zero.mpr hd
    have hl1 : "Tên sách: ".toList.count '\n' = 0 := by decide
    have hl2 : "Nội dung sách: ".toList.count '\n' = 0 := by decide
    have hnl : "\n".toList.count '\n' = 1 := by decide
    rw [hsplit]
    simp only [List.count_append, hn0, hd0, hl1, hl2, hnl]

/-- Witness for C3's amended theorem at a concrete item. -/
theorem compositeText_vietnamese_two_lines_witness :
    compositeText ⟨2, "A", "B"⟩ = compositeText ⟨3, "A", "B"⟩ ∧
    (compositeText ⟨2, "A", "B"⟩).toList.count '\n' = 1 :=
  ⟨compositeText_vietnamese_two_lines.2.1 ⟨2, "A", "B"⟩ ⟨3, "A", "B"⟩ rfl rfl,
   compositeText_vietnamese_two_lines.2.2 ⟨2, "A", "B"⟩ (by decide) (by decide)⟩

/-! ### C4 -/

lemma mk_toList (s : String) : String.mk s.toList = s := by
  cases s
  rfl

/-- C4: the product id stored for a file is the parent directory's
basename with its first five characters dropped — a positional slice,
so any five-character lead is removed, and `prod_42` gives `42`. -/
theorem product_id_strips_five_chars {E : Type} :
    (∀ (sd f : String) (emb : E),
      ((imageEntry sd f emb).metadata).lookup "product_id" =
        some (pySliceFrom (basename sd) 5)) ∧
    (∀ p r : String, p.toList.length = 5 → pySliceFrom (p ++ r) 5 = r) ∧
    productIdOf "prod_42" = "42" ∧
    productIdOf "data\\prod_42" = "42" := by
  refine ⟨fun sd f emb => rfl, ?_, by decide, by decide⟩
  intro p r hp
  unfold pySliceFrom
  rw [toList_append, ← hp, List.drop_left, mk_toList]

/-- Witness for C4 at the five-character `prod_` lead. -/
theorem product_id_strips_five_chars_witness :
    pySliceFrom ("prod_" ++ "42") 5 = "42" :=
  (product_id_strips_five_chars (E := Nat)).2.1 "prod_" "42" (by decide)

/-! ### C5 -/

/-- C5 is right about the intent but the code slips: `.jpeg` is a
supported extension, yet the id is `os.path.basename(file)[:-4]`, a
four-character cut, so `a.jpeg` is stored under the id `a.` rather
than its stem `a`. -/
theorem imageId_truncates_jpeg :
    isImageFile "a.jpeg" = true ∧
    (imageEntry "data\\prod_01" "a.jpeg" (0 : Nat)).id = "a." ∧
    imageIdOf "a.jpeg" ≠ "a" ∧
    imageIdOf "b.jpg" = "b" := by
  refine ⟨by decide, by decide, by decide, by decide⟩

/-! ### C6 -/

/-- A directory with two well-formed image files. -/
def demoWalk : List (String × List String) := [("data\\prod_01", ["a.jpg", "b.jpg"])]

/-- C6 is right about the intended filter but the code slips: the loop
reassigns the `image_embedding` variable from the generator object to
the returned vector, so on the second matching file the call
`image_embedding.generate_image_embedding(...)` raises
`AttributeError`; with two matching files only the first is inserted. -/
theorem imagePass_attribute_error_on_second_file :
    isImageFile "a.jpg" = true ∧ isImageFile "b.jpg" = true ∧
    ((imagePass (fun _ => (0 : Nat)) (fun _ => [77, 97, 110]) demoWalk []).1.map
        (fun e => e.id) = ["a"]) ∧
    (imagePass (fun _ => (0 : Nat)) (fun _ => [77, 97, 110]) demoWalk []).2 =
      some PyError.attributeError := by
  exact ⟨by decide, by decide, rfl, rfl⟩

/-! ### C7 -/

/-- C7 fails on the code as to the names: the two collections are
`text_chroma_db` and `image_chroma_db`, not `text` and `image`. -/
theorem collection_names_not_text_image :
    (setupCollections []).map Prod.fst = ["text_chroma_db", "image_chroma_db"] ∧
    "text" ∉ (setupCollections []).map Prod.fst ∧
    "image" ∉ (setupCollections []).map Prod.fst := by
  decide

lemma find?_append_of_none {α : Type} (l₁ l₂ : List α) (p : α → Bool)
    (h : l₁.find? p = none) : (l₁ ++ l₂).find? p = l₂.find? p := by
  induction l₁ with
  | nil => rfl
  | cons a t ih =>
      cases hpa : p a with
      | true =>
          rw [List.find?_cons_of_pos _ hpa] at h
          exact absurd h (by simp)
      | false =>
          have hpa' : ¬ p a = true := by simp [hpa]
          rw [List.find?_cons_of_neg _ hpa'] at h
          rw [List.cons_append, List.find?_cons_of_neg _ hpa']
          exact ih h

/-- C7 as amended: the pipeline creates exactly two collections, named
`text_chroma_db` and `image_chroma_db`, each with the cosine metric,
via a get-or-create call that is idempotent: repeating it with the
same name changes nothing and returns the same handle. -/
theorem setup_two_cosine_collections :
    setupCollections [] = [(text_collection_name, "cosine"), (image_collection_name, "cosine")] ∧
    text_collection_name = "text_chroma_db" ∧
    image_collection_name = "image_chroma_db" ∧
    (∀ (st : List (String × String)) (name metric : String),
      get_or_create_collection (get_or_create_collection st name metric).1 name metric =
        get_or_create_collection st name metric) := by
  refine ⟨by decide, rfl, rfl, ?_⟩
  intro st name metric
  unfold get_or_create_collection
  cases hfind : st.find? (fun p => p.1 == name) with
  | some p => simp [hfind]
  | none =>
      have h2 : (st ++ [(name, metric)]).find? (fun p => p.1 == name) =
          some (name, metric) := by
        rw [find?_append_of_none _ _ _ hfind]
        simp [List.find?_cons]
      simp [hfind, h2]

/-! ### C8 -/

/-- C8: a processed catalog item is inserted with id `str(item['Id'])`,
metadata exactly `{id, name, description}`, and the composite text as
the entry's document. -/
theorem textPass_entry_fields {E Err : Type} (gen : String → Except Err E)
    (item : CatalogItem) (rest : List CatalogItem) (c : List (IndexEntry E)) (emb : E)
    (h : gen (compositeText item) = .ok emb) :
    textPass gen (item :: rest) c = textPass gen rest (upsert c (textEntry item emb)) ∧
    (textEntry item emb).id = toString item.Id ∧
    (textEntry item emb).metadata =
      [("id", toString item.Id), ("name", item.Name), ("description", item.Description)] ∧
    (textEntry item emb).document = some (compositeText item) := by
  exact ⟨by simp [textPass, h], rfl, rfl, rfl⟩

/-- Witness for C8 at a concrete item. -/
theorem textPass_entry_fields_witness :
    textPass (fun _ => (Except.ok 0 : Except String Nat)) [⟨1, "Atlas", "A map"⟩] [] =
      textPass (fun _ => (Except.ok 0 : Except String Nat)) []
        (upsert [] (textEntry ⟨1, "Atlas", "A map"⟩ 0)) ∧
    (textEntry (⟨1, "Atlas", "A map"⟩ : CatalogItem) (0 : Nat)).id = toString (1 : Nat) ∧
    (textEntry (⟨1, "Atlas", "A map"⟩ : CatalogItem) (0 : Nat)).metadata =
      [("id", toString (1 : Nat)), ("name", "Atlas"), ("description", "A map")] ∧
    (textEntry (⟨1, "Atlas", "A map"⟩ : CatalogItem) (0 : Nat)).document =
      some (compositeText ⟨1, "Atlas", "A map"⟩) :=
  textPass_entry_fields _ ⟨1, "Atlas", "A map"⟩ [] [] 0 rfl

/-! ### C9 -/

/-- C9: what the image pass hands the embedding generator is the
base64 encoding of the file's bytes as a string (`image_to_base64`),
not the raw byte list: the loop's generate call receives
`base64Encode` of what was read from the joined path, and `base64Encode`
is RFC 4648 base64 (`[77, 97, 110]`, the bytes of `Man`, encode to
`TWFu`). -/
theorem image_generator_input_is_base64 {E : Type} (genFn : String → E)
    (readFile : String → List Nat) :
    (∀ (sd f : String) (rest : List (String × String)) (c : List (IndexEntry E)),
      imagePassLoop genFn readFile ((sd, f) :: rest) ImageVar.generator c =
        imagePassLoop genFn readFile rest
          (ImageVar.value (genFn (base64Encode (readFile (os_path_join sd f)))))
          (upsert c (imageEntry sd f (genFn (base64Encode (readFile (os_path_join sd f))))))) ∧
    (∀ path : String, image_to_base64 readFile path = base64Encode (readFile path)) ∧
    base64Encode [77, 97, 110] = "TWFu" ∧
    base64Encode [] = "" := by
  refine ⟨fun sd f rest c => rfl, fun path => rfl, by decide, rfl⟩

/-! ### C10 -/

/-- C10: every entry carries its own id in its metadata: the text pass
stores `metadata['id']` equal to the entry id (the string coercion of
the item's `Id`), and the image pass stores `metadata['image_id']`
equal to the entry id. -/
theorem metadata_id_matches_entry_id {E : Type} :
    (∀ (item : CatalogItem) (emb : E),
      ((textEntry item emb).metadata).lookup "id" = some (textEntry item emb).id) ∧
    (∀ (item : CatalogItem) (emb : E), (textEntry item emb).id = toString item.Id) ∧
    (∀ (sd f : String) (emb : E),
      ((imageEntry sd f emb).metadata).lookup "image_id" = some (imageEntry sd f emb).id) := by
  exact ⟨fun item emb => rfl, fun item emb => rfl, fun sd f emb => rfl⟩

end BookRetrieval
